import Mathlib

/-!
Shallow embedding of the casbin redis watcher (package `rediswatcher`,
files `watcher.go` and `options.go`) and proofs about the claims of its
specification.

Modelling conventions:
* A redis connection handle (`redis.Conn`) is modelled by a `String`
  identifier; `nil` connections are `Option.none`.
* Errors (`error` values) are modelled by `Option String`
  (`none` = nil error) or by `Except String _` where a value is returned.
* `time.Duration` is modelled by `Nat` (nanoseconds).
* The metrics sink `func(*WatcherMetrics)` is modelled by presence
  (`Option String`); invoking the sink is modelled by appending the
  metrics record to an emitted-metrics list.
* Wall-clock latency (`LatencyMs`, computed from `time.Now()`) is real
  time and is omitted from the metrics record.
-/

namespace RedisWatcher

/-- `WatcherMetrics` from watcher.go (LatencyMs omitted: wall-clock). -/
structure WatcherMetrics where
  Name : String
  LocalID : String
  Channel : String
  Protocol : String
  Error : Option String
  MessageSize : Int
deriving DecidableEq, Repr

/-- Metric name constants from watcher.go. -/
def RedisDoAuthMetric : String := "RedisDoAuth"

def RedisCloseMetric : String := "RedisClose"

def RedisDialMetric : String := "RedisDial"

def PubSubPublishMetric : String := "PubSubPublish"

def PubSubReceiveMetric : String := "PubSubReceive"

def PubSubSubscribeMetric : String := "PubSubSubscribe"

def PubSubUnsubscribeMetric : String := "PubSubUnsubscribe"

/-- `defaultShortMessageInTimeout = 1 * time.Millisecond` in nanoseconds. -/
def defaultShortMessageInTimeout : Nat := 1000000

/-- `defaultLongMessageInTimeout = 1 * time.Minute` in nanoseconds. -/
def defaultLongMessageInTimeout : Nat := 60000000000

/-- `WatcherOptions` from options.go.  `RecordMetrics` holds a sink
identifier (presence of the Go function pointer); `callbackPending` is the
unexported squash-pending flag. -/
structure WatcherOptions where
  Channel : String
  PubConn : Option String
  SubConn : Option String
  Password : String
  Protocol : String
  IgnoreSelf : Bool
  LocalID : String
  RecordMetrics : Option String
  SquashMessages : Bool
  SquashTimeoutShort : Nat
  SquashTimeoutLong : Nat
  callbackPending : Bool
deriving DecidableEq, Repr

/-- `WatcherOption` from options.go: a mutator of the options record. -/
def WatcherOption : Type := WatcherOptions → WatcherOptions

/-- Option setter `Channel` from options.go. -/
def Channel (subject : String) : WatcherOption :=
  fun options => { options with Channel := subject }

/-- Option setter `Password` from options.go. -/
def Password (password : String) : WatcherOption :=
  fun options => { options with Password := password }

/-- Option setter `Protocol` from options.go. -/
def Protocol (protocol : String) : WatcherOption :=
  fun options => { options with Protocol := protocol }

/-- Option setter `WithRedisSubConnection` from options.go. -/
def WithRedisSubConnection (connection : Option String) : WatcherOption :=
  fun options => { options with SubConn := connection }

/-- Option setter `WithRedisPubConnection` from options.go. -/
def WithRedisPubConnection (connection : Option String) : WatcherOption :=
  fun options => { options with PubConn := connection }

/-- Option setter `LocalID` from options.go. -/
def LocalID (id : String) : WatcherOption :=
  fun options => { options with LocalID := id }

/-- Option setter `IgnoreSelf` from options.go. -/
def IgnoreSelf (ignore : Bool) : WatcherOption :=
  fun options => { options with IgnoreSelf := ignore }

/-- Option setter `SquashMessages` from options.go. -/
def SquashMessages (squash : Bool) : WatcherOption :=
  fun options => { options with SquashMessages := squash }

/-- Option setter `RecordMetrics` from options.go. -/
def RecordMetrics (callback : Option String) : WatcherOption :=
  fun options => { options with RecordMetrics := callback }

/-- Option setter `SquashTimeoutShort` from options.go. -/
def SquashTimeoutShort (d : Nat) : WatcherOption :=
  fun options => { options with SquashTimeoutShort := d }

/-- Option setter `SquashTimeoutLong` from options.go. -/
def SquashTimeoutLong (d : Nat) : WatcherOption :=
  fun options => { options with SquashTimeoutLong := d }

/-- The default configuration assigned by `NewWatcher` (watcher.go lines
69-75) before any setter runs.  `freshId` stands for the value of
`uuid.New().String()`, generated once per controller; fields the Go
struct literal leaves out get their Go zero values. -/
def defaultWatcherOptions (freshId : String) : WatcherOptions :=
  { Channel := "/casbin"
    Protocol := "tcp"
    LocalID := freshId
    SquashTimeoutShort := defaultShortMessageInTimeout
    SquashTimeoutLong := defaultLongMessageInTimeout
    PubConn := none
    SubConn := none
    Password := ""
    IgnoreSelf := false
    RecordMetrics := none
    SquashMessages := false
    callbackPending := false }

/-- The configuration produced by `NewWatcher` (watcher.go lines 69-79):
defaults first, then each caller-supplied setter applied in order. -/
def buildOptions (freshId : String) (setters : List WatcherOption) : WatcherOptions :=
  setters.foldl (fun o s => s o) (defaultWatcherOptions freshId)

/-! ## Debounce/delivery processor (`messageInProcessor`, watcher.go 303-342)

The processor goroutine is a loop over a three-way `select`:
shutdown (`<-w.closed`), a dequeued payload (`msg := <-w.messagesIn`),
and the debounce timer (`<-time.After(timeOut)`).  We embed its loop body
as a step function over an explicit state and model a run as a fold over
the list of events the `select` resolves to, in order.  `SetUpdateCallback`
(watcher.go 141-144) writes `w.callback` and is included as an event.
In the source the `callbackPending` flag lives in `w.options`; here it is
a field of the processor state (the immutable option fields are passed
separately).  Invoking the callback is modelled by emitting the payload;
the `emitted` list of a step collects those payloads.  `nilDeref` records
that the timeout branch executed `w.callback(data)` while `w.callback`
was nil (a Go nil-function call, i.e. a panic). -/

/-- One event the processor's `select` can resolve to. -/
inductive ProcEvent where
  | closed : ProcEvent
  | message (payload : String) : ProcEvent
  | timeout : ProcEvent
  | setCallback (f : Option Unit) : ProcEvent
deriving DecidableEq, Repr

/-- Mutable state of the processor goroutine: the squash-pending flag
(`w.options.callbackPending`), the `data` local, the `timeOut` local, the
installed callback (`w.callback`, by presence), and whether the goroutine
has returned. -/
structure ProcState where
  callbackPending : Bool
  data : String
  timeOut : Nat
  callback : Option Unit
  stopped : Bool
deriving DecidableEq, Repr

/-- Result of one processor step. -/
structure StepOut where
  state : ProcState
  emitted : List String
  nilDeref : Bool
deriving DecidableEq, Repr

/-- State of the processor right after `messageInProcessor` initialises
it (watcher.go 304-306): `callbackPending = false`, `data` the empty
string, `timeOut = SquashTimeoutLong`; `w.callback` is still nil at
construction time. -/
def messageInProcessorInit (opts : WatcherOptions) : ProcState :=
  { callbackPending := false
    data := ""
    timeOut := opts.SquashTimeoutLong
    callback := none
    stopped := false }

/-- One iteration of the processor loop (watcher.go 308-340), translated
case by case from the `select` and the `switch` inside the message case.
A stopped processor ignores every event (the goroutine has returned). -/
def messageInProcessorStep (opts : WatcherOptions) (s : ProcState)
    (e : ProcEvent) : StepOut :=
  if s.stopped then ⟨s, [], false⟩ else
  match e with
  | .closed => ⟨{ s with stopped := true }, [], false⟩
  | .setCallback f => ⟨{ s with callback := f }, [], false⟩
  | .message p =>
      let afterSwitch : ProcState × List String :=
        match s.callback with
        | none => (s, [])
        | some _ =>
            let base := { s with data := p }
            if !opts.IgnoreSelf && !opts.SquashMessages then (base, [p])
            else if opts.IgnoreSelf && p == opts.LocalID then (base, [])
            else if !opts.IgnoreSelf && opts.SquashMessages then
              ({ base with callbackPending := true }, [])
            else if opts.IgnoreSelf && p != opts.LocalID && !opts.SquashMessages then
              (base, [p])
            else if opts.IgnoreSelf && p != opts.LocalID && opts.SquashMessages then
              ({ base with callbackPending := true }, [])
            else (base, [p])
      let s1 := afterSwitch.1
      let s2 := if s1.callbackPending then
          { s1 with timeOut := opts.SquashTimeoutShort } else s1
      ⟨s2, afterSwitch.2, false⟩
  | .timeout =>
      if s.callbackPending then
        ⟨{ s with callbackPending := false, timeOut := opts.SquashTimeoutLong },
          [s.data], s.callback.isNone⟩
      else ⟨s, [], false⟩

/-- Result of a processor run over a list of events. -/
structure RunOut where
  state : ProcState
  emitted : List String
  nilDeref : Bool
deriving DecidableEq, Repr

/-- Run the processor from state `s` over a list of events, collecting
the emitted callback payloads in order. -/
def messageInProcessorRun (opts : WatcherOptions) (s : ProcState) :
    List ProcEvent → RunOut
  | [] => ⟨s, [], false⟩
  | e :: es =>
      let o := messageInProcessorStep opts s e
      let r := messageInProcessorRun opts o.state es
      ⟨r.state, o.emitted ++ r.emitted, o.nilDeref || r.nilDeref⟩

/-! ## Metrics sink helper

`if w.options.RecordMetrics != nil { w.options.RecordMetrics(m) }` is
modelled by `recordIf`: the record is appended to the emitted-metrics
list exactly when a sink is configured. -/

/-- `createMetrics` (watcher.go 344-353), with the wall-clock `LatencyMs`
field omitted (real time). -/
def createMetrics (opts : WatcherOptions) (metricsName : String)
    (err : Option String) : WatcherMetrics :=
  { Name := metricsName
    Channel := opts.Channel
    LocalID := opts.LocalID
    Protocol := opts.Protocol
    Error := err
    MessageSize := 0 }

/-- Emit a metrics record iff a sink is configured. -/
def recordIf (opts : WatcherOptions) (m : WatcherMetrics) : List WatcherMetrics :=
  if opts.RecordMetrics.isSome then [m] else []

/-! ## Controller lifecycle: `Close` and `finalizer` (watcher.go 164-166,
360-374)

`finalizer` runs its body under `w.once.Do`: the body closes the
shutdown channel and then closes the subscribe-side and publish-side
connection handles, whatever their origin.  We model the watcher's
teardown-relevant state with counters of how many times each of those
three closes has executed, plus the ownership flags the finalizer never
consults. -/

/-- Teardown-relevant watcher state.  `onceDone` is `sync.Once` having
fired; the counters count executions of `close(w.closed)`,
`w.subConn.Close()` and `w.pubConn.Close()`.  The two `External` flags
record whether each handle was supplied by the caller
(`WithRedis*Connection`) rather than dialed internally; `finalizer`
never reads them. -/
structure WatcherLifecycle where
  onceDone : Bool
  closedChanCloses : Nat
  subConnCloses : Nat
  pubConnCloses : Nat
  subConnExternal : Bool
  pubConnExternal : Bool
deriving DecidableEq, Repr

/-- `finalizer` (watcher.go 360-374): under `once.Do`, close the shutdown
channel and both connection handles (the close-metric emissions are not
part of the lifecycle state). -/
def finalizer (w : WatcherLifecycle) : WatcherLifecycle :=
  if w.onceDone then w
  else
    { w with
      onceDone := true
      closedChanCloses := w.closedChanCloses + 1
      subConnCloses := w.subConnCloses + 1
      pubConnCloses := w.pubConnCloses + 1 }

/-- `Close` (watcher.go 164-166) just calls `finalizer`. -/
def Close (w : WatcherLifecycle) : WatcherLifecycle :=
  finalizer w

/-- The lifecycle state of a freshly constructed watcher with the given
connection origins: nothing closed yet, `once` not fired. -/
def freshLifecycle (subExternal pubExternal : Bool) : WatcherLifecycle :=
  { onceDone := false
    closedChanCloses := 0
    subConnCloses := 0
    pubConnCloses := 0
    subConnExternal := subExternal
    pubConnExternal := pubExternal }

/-! ## `Update` (watcher.go 148-161)

`Update` performs one `PUBLISH` of the local instance identifier on the
configured channel over the publish connection.  The broker's response is
not computable here, so the publish outcome (`nil` or an error) is a
parameter; the model returns the outcome propagated to the caller, the
list of publish commands issued, and the metrics emitted. -/

/-- Result of one `Update` call: the returned error, the publish commands
issued as (channel, payload) pairs, and the emitted metrics. -/
structure UpdateOut where
  result : Option String
  published : List (String × String)
  metrics : List WatcherMetrics
deriving DecidableEq, Repr

/-- `Update` (watcher.go 148-161), parameterised by the outcome
`publishErr` of `w.pubConn.Do("PUBLISH", ...)`. -/
def Update (opts : WatcherOptions) (publishErr : Option String) : UpdateOut :=
  match publishErr with
  | some e =>
      { result := some e
        published := [(opts.Channel, opts.LocalID)]
        metrics := recordIf opts (createMetrics opts PubSubPublishMetric (some e)) }
  | none =>
      { result := none
        published := [(opts.Channel, opts.LocalID)]
        metrics := recordIf opts (createMetrics opts PubSubPublishMetric none) }

/-! ## `dial`, `connectPub`, `connectSub` (watcher.go 192-251)

`redis.Dial`, the `AUTH` round-trip and `Close` are I/O; their outcomes
are parameters.  `dial` returns the connection or an error, the list of
connections it closed, and the metrics it emitted. -/

/-- Result of one `dial` call. -/
structure DialOut where
  result : Except String String
  closedConns : List String
  metrics : List WatcherMetrics
deriving Repr

/-- `dial` (watcher.go 220-251).  `dialRes` is the outcome of
`redis.Dial`; when a password is configured, `authErr` is the outcome of
`c.Do("AUTH", ...)` and `closeErr` the outcome of the `c.Close()` issued
on authentication failure. -/
def dial (opts : WatcherOptions) (dialRes : Except String String)
    (authErr : Option String) (closeErr : Option String) : DialOut :=
  match dialRes with
  | .error e =>
      { result := .error e
        closedConns := []
        metrics := recordIf opts (createMetrics opts RedisDialMetric (some e)) }
  | .ok c =>
      let m1 := recordIf opts (createMetrics opts RedisDialMetric none)
      if opts.Password = "" then
        { result := .ok c, closedConns := [], metrics := m1 }
      else
        match authErr with
        | some e =>
            { result := .error e
              closedConns := [c]
              metrics := m1
                ++ recordIf opts (createMetrics opts RedisDoAuthMetric (some e))
                ++ recordIf opts (createMetrics opts RedisCloseMetric closeErr) }
        | none =>
            { result := .ok c
              closedConns := []
              metrics := m1
                ++ recordIf opts (createMetrics opts RedisDoAuthMetric none) }

/-- The two connection fields of the watcher (`w.pubConn`, `w.subConn`),
`none` meaning nil. -/
structure ConnState where
  pubConn : Option String
  subConn : Option String
deriving DecidableEq, Repr

/-- `connectPub` (watcher.go 192-204): reuse a caller-supplied
connection, else dial; on a dial/auth error the watcher state is left
untouched and the error is returned.  Returns (new state, error). -/
def connectPub (opts : WatcherOptions) (w : ConnState)
    (dialRes : Except String String) (authErr closeErr : Option String) :
    ConnState × Option String :=
  match opts.PubConn with
  | some c => ({ w with pubConn := some c }, none)
  | none =>
      match (dial opts dialRes authErr closeErr).result with
      | .error e => (w, some e)
      | .ok c => ({ w with pubConn := some c }, none)

/-- `connectSub` (watcher.go 206-218), symmetric to `connectPub`. -/
def connectSub (opts : WatcherOptions) (w : ConnState)
    (dialRes : Except String String) (authErr closeErr : Option String) :
    ConnState × Option String :=
  match opts.SubConn with
  | some c => ({ w with subConn := some c }, none)
  | none =>
      match (dial opts dialRes authErr closeErr).result with
      | .error e => (w, some e)
      | .ok c => ({ w with subConn := some c }, none)

/-! ## Subscription loop: `subscribe` and `unsubscribe` (watcher.go
253-301)

The loop receives an unbounded stream of broker events.  Each
`psc.Receive()` yields an error, a payload message, or a subscription
confirmation carrying a remaining-count; the events actually delivered by
the broker are a parameter (a finite list, in order).  Pushing onto
`w.messagesIn` is modelled by appending to the `queued` list.  The loop
never touches `w.callback`; `callbackCalls` records what it would have
invoked, and stays empty. -/

/-- One event returned by `psc.Receive()`. -/
inductive RedisEvent where
  | err (e : String) : RedisEvent
  | msg (payload : String) : RedisEvent
  | subscription (kind : String) (count : Nat) : RedisEvent
deriving DecidableEq, Repr

/-- `unsubscribe` (watcher.go 253-259): issue `UNSUBSCRIBE`, swallow its
error, and record it via the metrics sink only.  Returns the emitted
metrics (there is no error return in the source). -/
def unsubscribe (opts : WatcherOptions) (unsubErr : Option String) :
    List WatcherMetrics :=
  recordIf opts (createMetrics opts PubSubUnsubscribeMetric unsubErr)

/-- Accumulated outcome of the receive loop body (watcher.go 275-300):
`result = some r` means the loop executed `return r` (`r = none` is the
clean `return nil`); `result = none` means the event list ran out while
the loop was still blocked in `Receive`. -/
structure LoopOut where
  result : Option (Option String)
  queued : List String
  metrics : List WatcherMetrics
deriving DecidableEq, Repr

/-- The receive loop of `subscribe` (watcher.go 275-300).  A message
event records a receive metric carrying the payload size and is pushed
onto the internal queue; a subscription event with remaining count zero
returns nil; an error event returns that error. -/
def subscribeLoop (opts : WatcherOptions) : List RedisEvent → LoopOut
  | [] => ⟨none, [], []⟩
  | .err e :: _ =>
      ⟨some (some e), [],
        recordIf opts (createMetrics opts PubSubReceiveMetric (some e))⟩
  | .msg p :: es =>
      let m := { createMetrics opts PubSubReceiveMetric none with
                   MessageSize := (p.length : Int) }
      let r := subscribeLoop opts es
      ⟨r.result, p :: r.queued, recordIf opts m ++ r.metrics⟩
  | .subscription _ 0 :: _ =>
      ⟨some none, [],
        recordIf opts (createMetrics opts PubSubReceiveMetric none)⟩
  | .subscription _ (_ + 1) :: es =>
      let r := subscribeLoop opts es
      ⟨r.result,
        r.queued,
        recordIf opts (createMetrics opts PubSubReceiveMetric none) ++ r.metrics⟩

/-- Full outcome of one `subscribe` call. -/
structure SubscribeOut where
  result : Option (Option String)
  queued : List String
  metrics : List WatcherMetrics
  unsubCalled : Bool
  callbackCalls : List String
deriving DecidableEq, Repr

/-- `subscribe` (watcher.go 261-301).  `subErr` is the outcome of
`psc.Subscribe`; on subscribe failure the error is returned and the
deferred `unsubscribe` is never registered.  Otherwise the receive loop
runs over `events`; whenever it returns, the deferred `unsubscribe`
(outcome `unsubErr`) runs on the way out. -/
def subscribe (opts : WatcherOptions) (subErr : Option String)
    (events : List RedisEvent) (unsubErr : Option String) : SubscribeOut :=
  match subErr with
  | some e =>
      ⟨some (some e), [],
        recordIf opts (createMetrics opts PubSubSubscribeMetric (some e)),
        false, []⟩
  | none =>
      let subM := recordIf opts (createMetrics opts PubSubSubscribeMetric none)
      let r := subscribeLoop opts events
      match r.result with
      | some res =>
          ⟨some res, r.queued, subM ++ r.metrics ++ unsubscribe opts unsubErr,
            true, []⟩
      | none => ⟨none, r.queued, subM ++ r.metrics, false, []⟩

/-! ## Theorems -/

/-- Claim C9: configuration construction first assigns the defaults
(channel "/casbin", protocol "tcp", the freshly generated local
identifier, and the default short and long squash timeouts) and only then
applies the caller-supplied setters in the order given, so a later option
overrides an earlier option and any default for the same field; each
named option-setter is a total function (never fails) mutating exactly
one field of the configuration. -/
theorem newWatcher_options_construction (freshId : String) :
    buildOptions freshId [] = defaultWatcherOptions freshId
    ∧ (∀ (setters : List WatcherOption) (f : WatcherOption),
        buildOptions freshId (setters ++ [f]) = f (buildOptions freshId setters))
    ∧ (∀ (setters : List WatcherOption) (f : WatcherOption),
        buildOptions freshId (f :: setters)
          = setters.foldl (fun o s => s o) (f (defaultWatcherOptions freshId)))
    ∧ (defaultWatcherOptions freshId).Channel = "/casbin"
    ∧ (defaultWatcherOptions freshId).Protocol = "tcp"
    ∧ (defaultWatcherOptions freshId).LocalID = freshId
    ∧ (defaultWatcherOptions freshId).SquashTimeoutShort = defaultShortMessageInTimeout
    ∧ (defaultWatcherOptions freshId).SquashTimeoutLong = defaultLongMessageInTimeout
    ∧ (∀ o v, Channel v o = { o with Channel := v })
    ∧ (∀ o v, Password v o = { o with Password := v })
    ∧ (∀ o v, Protocol v o = { o with Protocol := v })
    ∧ (∀ o v, WithRedisSubConnection v o = { o with SubConn := v })
    ∧ (∀ o v, WithRedisPubConnection v o = { o with PubConn := v })
    ∧ (∀ o v, LocalID v o = { o with LocalID := v })
    ∧ (∀ o v, IgnoreSelf v o = { o with IgnoreSelf := v })
    ∧ (∀ o v, SquashMessages v o = { o with SquashMessages := v })
    ∧ (∀ o v, RecordMetrics v o = { o with RecordMetrics := v })
    ∧ (∀ o v, SquashTimeoutShort v o = { o with SquashTimeoutShort := v })
    ∧ (∀ o v, SquashTimeoutLong v o = { o with SquashTimeoutLong := v }) := by
  refine ⟨rfl, ?_, fun _ _ => rfl, rfl, rfl, rfl, rfl, rfl,
    fun o v => rfl, fun o v => rfl, fun o v => rfl, fun o v => rfl,
    fun o v => rfl, fun o v => rfl, fun o v => rfl, fun o v => rfl,
    fun o v => rfl, fun o v => rfl, fun o v => rfl⟩
  intro setters f
  simp [buildOptions, List.foldl_append]

/-- Claim C4: `Close` is idempotent.  However many times it is invoked
on a freshly constructed watcher, exactly one execution runs the
teardown: the shutdown channel is closed exactly once and both held
connection handles are closed exactly once each, regardless of the
ownership flags; every invocation after the first leaves the state
unchanged. -/
theorem close_idempotent (n : Nat) (subExt pubExt : Bool) (hn : 1 ≤ n) :
    Close^[n] (freshLifecycle subExt pubExt) = Close (freshLifecycle subExt pubExt)
    ∧ (Close (freshLifecycle subExt pubExt)).closedChanCloses = 1
    ∧ (Close (freshLifecycle subExt pubExt)).subConnCloses = 1
    ∧ (Close (freshLifecycle subExt pubExt)).pubConnCloses = 1
    ∧ (∀ w : WatcherLifecycle, Close (Close w) = Close w) := by
  have hdone : ∀ w : WatcherLifecycle, w.onceDone = true → Close w = w := by
    intro w hw
    simp [Close, finalizer, hw]
  have hfix : ∀ m : Nat, ∀ w : WatcherLifecycle, w.onceDone = true →
      Close^[m] w = w := by
    intro m
    induction m with
    | zero => intro w _; rfl
    | succ k ih =>
        intro w hw
        rw [Function.iterate_succ_apply, hdone w hw]
        exact ih w hw
  have honce : (Close (freshLifecycle subExt pubExt)).onceDone = true := by
    simp [Close, finalizer, freshLifecycle]
  refine ⟨?_, ?_, ?_, ?_, fun w => ?_⟩
  · obtain ⟨k, rfl⟩ : ∃ k, n = k + 1 := ⟨n - 1, (Nat.succ_pred_eq_of_pos hn).symm⟩
    rw [Function.iterate_succ_apply]
    exact hfix k _ honce
  · simp [Close, finalizer, freshLifecycle]
  · simp [Close, finalizer, freshLifecycle]
  · simp [Close, finalizer, freshLifecycle]
  · by_cases hw : w.onceDone = true
    · rw [hdone w hw, hdone w hw]
    · have : (Close w).onceDone = true := by
        simp [Close, finalizer, hw]
      exact hdone _ this

/-- Witness for C4 at a concrete input: three consecutive closes of a
fresh watcher holding one external and one internal connection equal a
single close, which closes each resource exactly once. -/
theorem close_idempotent_witness :
    Close^[3] (freshLifecycle true false) = Close (freshLifecycle true false)
    ∧ (Close (freshLifecycle true false)).subConnCloses = 1 := by
  have h := close_idempotent 3 true false (by decide)
  exact ⟨h.1, h.2.2.1⟩

/-- Claim C5: `Update` publishes exactly the controller's local instance
identifier on the configured channel; it returns the publish error on
failure and nil on success; whenever a metrics sink is configured it
records exactly one publish-operation metric per call, on success and on
failure alike, and no metric is emitted without a sink. -/
theorem update_publish_contract (opts : WatcherOptions)
    (publishErr : Option String) :
    (Update opts publishErr).result = publishErr
    ∧ (Update opts publishErr).published = [(opts.Channel, opts.LocalID)]
    ∧ (opts.RecordMetrics.isSome = true →
        (Update opts publishErr).metrics
          = [createMetrics opts PubSubPublishMetric publishErr])
    ∧ (opts.RecordMetrics = none → (Update opts publishErr).metrics = []) := by
  cases publishErr with
  | none =>
      refine ⟨rfl, rfl, fun hs => ?_, fun hn => ?_⟩
      · simp [Update, recordIf, hs]
      · simp [Update, recordIf, hn]
  | some e =>
      refine ⟨rfl, rfl, fun hs => ?_, fun hn => ?_⟩
      · simp [Update, recordIf, hs]
      · simp [Update, recordIf, hn]

/-- Witness for C5 at a concrete input: with a metrics sink configured
and a failing publish, `Update` returns the error, publishes the local
identifier on the channel, and emits exactly one publish metric. -/
theorem update_publish_contract_witness :
    (Update
        { defaultWatcherOptions "id1" with RecordMetrics := some "sink" }
        (some "boom")).result = some "boom"
    ∧ (Update
        { defaultWatcherOptions "id1" with RecordMetrics := some "sink" }
        (some "boom")).published = [("/casbin", "id1")]
    ∧ (Update
        { defaultWatcherOptions "id1" with RecordMetrics := some "sink" }
        (some "boom")).metrics.length = 1 := by
  have h := update_publish_contract
    { defaultWatcherOptions "id1" with RecordMetrics := some "sink" } (some "boom")
  refine ⟨h.1, ?_, ?_⟩
  · rw [h.2.1]
    rfl
  · rw [h.2.2.1 rfl]
    rfl

/-- Claim C7: when `dial` establishes an internally-owned connection and
a credential is configured, an authentication failure closes the freshly
dialed connection and returns the authentication error — not the close
error, whatever it is — and `connectPub`/`connectSub` retain no
half-initialized connection: the watcher's connection fields are left
exactly as they were. -/
theorem dial_auth_failure_contract (opts : WatcherOptions) (w : ConnState)
    (c e : String) (closeErr : Option String)
    (hpw : opts.Password ≠ "") :
    (dial opts (.ok c) (some e) closeErr).result = .error e
    ∧ (dial opts (.ok c) (some e) closeErr).closedConns = [c]
    ∧ (opts.PubConn = none →
        connectPub opts w (.ok c) (some e) closeErr = (w, some e))
    ∧ (opts.SubConn = none →
        connectSub opts w (.ok c) (some e) closeErr = (w, some e)) := by
  have hdial : (dial opts (.ok c) (some e) closeErr).result = .error e
      ∧ (dial opts (.ok c) (some e) closeErr).closedConns = [c] := by
    constructor <;> simp [dial, hpw]
  refine ⟨hdial.1, hdial.2, fun hpub => ?_, fun hsub => ?_⟩
  · simp only [connectPub, hpub, hdial.1]
  · simp only [connectSub, hsub, hdial.1]

/-- Witness for C7 at a concrete input: password configured, fresh dial
succeeds with handle "c1", authentication fails with "autherr", and the
subsequent close itself fails with a different error "closeerr"; the
returned error is the authentication error, the fresh handle is closed,
and the connection fields stay nil. -/
theorem dial_auth_failure_contract_witness :
    (dial { defaultWatcherOptions "id1" with Password := "pw" }
        (.ok "c1") (some "autherr") (some "closeerr")).result
      = .error "autherr"
    ∧ (dial { defaultWatcherOptions "id1" with Password := "pw" }
        (.ok "c1") (some "autherr") (some "closeerr")).closedConns = ["c1"]
    ∧ connectPub { defaultWatcherOptions "id1" with Password := "pw" }
        ⟨none, none⟩ (.ok "c1") (some "autherr") (some "closeerr")
      = (⟨none, none⟩, some "autherr") := by
  have h := dial_auth_failure_contract
    { defaultWatcherOptions "id1" with Password := "pw" }
    ⟨none, none⟩ "c1" "autherr" (some "closeerr") (by simp)
  exact ⟨h.1, h.2.1, h.2.2.1 rfl⟩

/-- Events the receive loop passes through without returning: payload
messages and subscription confirmations with a nonzero remaining count. -/
def isNonTerminal : RedisEvent → Bool
  | .msg _ => true
  | .subscription _ (_ + 1) => true
  | _ => false

/-- The payloads of the message events of an event list, in order. -/
def payloadsOf : List RedisEvent → List String
  | [] => []
  | .msg p :: es => p :: payloadsOf es
  | _ :: es => payloadsOf es

/-- The receive loop passes over a non-terminal prefix, queuing exactly
its message payloads, and settles on the first terminating event. -/
theorem subscribeLoop_prefix (opts : WatcherOptions) :
    ∀ (pre : List RedisEvent), pre.all isNonTerminal = true →
    ∀ (t : RedisEvent) (rest : List RedisEvent),
      isNonTerminal t = false →
      (subscribeLoop opts (pre ++ t :: rest)).result
        = (subscribeLoop opts (t :: rest)).result
      ∧ (subscribeLoop opts (pre ++ t :: rest)).queued
        = payloadsOf pre ++ (subscribeLoop opts (t :: rest)).queued := by
  intro pre
  induction pre with
  | nil => intro _ t rest _; simp [payloadsOf]
  | cons ev pre ih =>
      intro hall t rest ht
      rw [List.all_cons, Bool.and_eq_true] at hall
      have hev : isNonTerminal ev = true := hall.1
      have hpre : pre.all isNonTerminal = true := hall.2
      have ihr := ih hpre t rest ht
      cases ev with
      | err e => simp [isNonTerminal] at hev
      | msg p =>
          constructor
          · simpa [subscribeLoop] using ihr.1
          · simp [subscribeLoop, payloadsOf, ihr.2]
      | subscription kind count =>
          cases count with
          | zero => simp [isNonTerminal] at hev
          | succ k =>
              constructor
              · simpa [subscribeLoop] using ihr.1
              · simp [subscribeLoop, payloadsOf, ihr.2]

/-- Claim C6: with the subscription established, the receive loop handles
each broker event as follows — a transport error terminates the loop and
is returned; a subscription confirmation with remaining count zero
terminates the loop cleanly (nil); every payload event before the
terminator is pushed onto the internal message queue in order; the loop
never invokes the user callback; on every loop exit (error or clean) the
deferred unsubscribe runs, its outcome is swallowed (the loop's result
and queue do not depend on it) and is recorded only via the optional
metrics sink. -/
theorem subscribe_event_classification (opts : WatcherOptions)
    (pre rest : List RedisEvent) (unsubErr : Option String)
    (e kind : String) (hpre : pre.all isNonTerminal = true) :
    (subscribe opts none (pre ++ .err e :: rest) unsubErr).result
      = some (some e)
    ∧ (subscribe opts none (pre ++ .err e :: rest) unsubErr).queued
      = payloadsOf pre
    ∧ (subscribe opts none (pre ++ .err e :: rest) unsubErr).unsubCalled = true
    ∧ (subscribe opts none (pre ++ .subscription kind 0 :: rest) unsubErr).result
      = some none
    ∧ (subscribe opts none (pre ++ .subscription kind 0 :: rest) unsubErr).queued
      = payloadsOf pre
    ∧ (subscribe opts none (pre ++ .subscription kind 0 :: rest) unsubErr).unsubCalled
      = true
    ∧ (∀ events : List RedisEvent,
        (subscribe opts none events unsubErr).callbackCalls = [])
    ∧ (∀ (events : List RedisEvent) (u1 u2 : Option String),
        (subscribe opts none events u1).result
          = (subscribe opts none events u2).result
        ∧ (subscribe opts none events u1).queued
          = (subscribe opts none events u2).queued)
    ∧ unsubscribe opts unsubErr
      = (if opts.RecordMetrics.isSome then
          [createMetrics opts PubSubUnsubscribeMetric unsubErr] else []) := by
  have herr := subscribeLoop_prefix opts pre hpre (.err e) rest rfl
  have hsub := subscribeLoop_prefix opts pre hpre (.subscription kind 0) rest rfl
  have herrLoop : (subscribeLoop opts (RedisEvent.err e :: rest)).result
      = some (some e) := rfl
  have hsubLoop :
      (subscribeLoop opts (RedisEvent.subscription kind 0 :: rest)).result
      = some none := rfl
  have herrQ : (subscribeLoop opts (RedisEvent.err e :: rest)).queued = [] := rfl
  have hsubQ :
      (subscribeLoop opts (RedisEvent.subscription kind 0 :: rest)).queued
      = [] := rfl
  refine ⟨?_, ?_, ?_, ?_, ?_, ?_, ?_, ?_, rfl⟩
  · simp [subscribe, herr.1, herrLoop]
  · simp [subscribe, herr.1, herr.2, herrLoop, herrQ]
  · simp [subscribe, herr.1, herrLoop]
  · simp [subscribe, hsub.1, hsubLoop]
  · simp [subscribe, hsub.1, hsub.2, hsubLoop, hsubQ]
  · simp [subscribe, hsub.1, hsubLoop]
  · intro events
    simp only [subscribe]
    cases h : (subscribeLoop opts events).result <;> simp
  · intro events u1 u2
    simp only [subscribe]
    cases h : (subscribeLoop opts events).result <;> simp

/-- Witness for C6 at a concrete input: two queued payloads and a
surviving confirmation before an error terminator; the loop returns the
error, queues exactly the payloads, and unsubscribes. -/
theorem subscribe_event_classification_witness :
    (subscribe (defaultWatcherOptions "id1") none
        ([.msg "a", .subscription "subscribe" 1, .msg "b"]
          ++ .err "conn reset" :: [.msg "z"]) (some "unsub fail")).result
      = some (some "conn reset")
    ∧ (subscribe (defaultWatcherOptions "id1") none
        ([.msg "a", .subscription "subscribe" 1, .msg "b"]
          ++ .err "conn reset" :: [.msg "z"]) (some "unsub fail")).queued
      = ["a", "b"]
    ∧ (subscribe (defaultWatcherOptions "id1") none
        ([.msg "a", .subscription "subscribe" 1, .msg "b"]
          ++ .err "conn reset" :: [.msg "z"]) (some "unsub fail")).unsubCalled
      = true := by
  have h := subscribe_event_classification (defaultWatcherOptions "id1")
    [.msg "a", .subscription "subscribe" 1, .msg "b"] [.msg "z"]
    (some "unsub fail") "conn reset" "ignored" (by rfl)
  exact ⟨h.1, h.2.1, h.2.2.1⟩

/-- Claim C1: with a callback installed, each dequeued payload message is
handled exactly per the decision table — ignore-self off, squash off:
immediate callback with the payload; ignore-self on, squash off:
suppressed iff the payload equals the local identifier, else immediate
callback; squash on: suppressed iff ignore-self is on and the payload
equals the local identifier, otherwise the pending flag is marked and
delivery deferred with no immediate callback. -/
theorem messageInProcessor_decision_table (opts : WatcherOptions)
    (s : ProcState) (p : String) (hs : s.stopped = false)
    (hcb : s.callback = some ()) :
    (opts.IgnoreSelf = false → opts.SquashMessages = false →
      (messageInProcessorStep opts s (.message p)).emitted = [p]
      ∧ (messageInProcessorStep opts s (.message p)).state.callbackPending
          = s.callbackPending)
    ∧ (opts.IgnoreSelf = true → opts.SquashMessages = false →
        (p = opts.LocalID →
          (messageInProcessorStep opts s (.message p)).emitted = []
          ∧ (messageInProcessorStep opts s (.message p)).state.callbackPending
              = s.callbackPending)
        ∧ (p ≠ opts.LocalID →
          (messageInProcessorStep opts s (.message p)).emitted = [p]
          ∧ (messageInProcessorStep opts s (.message p)).state.callbackPending
              = s.callbackPending))
    ∧ (opts.SquashMessages = true →
        (opts.IgnoreSelf = true → p = opts.LocalID →
          (messageInProcessorStep opts s (.message p)).emitted = []
          ∧ (messageInProcessorStep opts s (.message p)).state.callbackPending
              = s.callbackPending)
        ∧ (¬(opts.IgnoreSelf = true ∧ p = opts.LocalID) →
          (messageInProcessorStep opts s (.message p)).emitted = []
          ∧ (messageInProcessorStep opts s (.message p)).state.callbackPending
              = true)) := by
  refine ⟨fun hI hS => ?_, fun hI hS => ⟨fun hp => ?_, fun hp => ?_⟩,
    fun hS => ⟨fun hI hp => ?_, fun hns => ?_⟩⟩
  · constructor <;>
      simp [messageInProcessorStep, hs, hcb, hI, hS, apply_ite]
  · constructor <;>
      simp [messageInProcessorStep, hs, hcb, hI, hS, hp, apply_ite]
  · constructor <;>
      simp [messageInProcessorStep, hs, hcb, hI, hS, hp, apply_ite]
  · constructor <;>
      simp [messageInProcessorStep, hs, hcb, hI, hS, hp, apply_ite]
  · by_cases hI : opts.IgnoreSelf = true
    · have hp : p ≠ opts.LocalID := fun hpe => hns ⟨hI, hpe⟩
      constructor <;>
        simp [messageInProcessorStep, hs, hcb, hI, hS, hp, apply_ite]
    · have hI2 : opts.IgnoreSelf = false := by
        cases hF : opts.IgnoreSelf
        · rfl
        · exact absurd hF hI
      constructor <;>
        simp [messageInProcessorStep, hs, hcb, hI2, hS, apply_ite]

/-- Witness for C1 at a concrete input: ignore-self on, squash off,
local id "id1"; an incoming "id1" is suppressed and an incoming "x" is
delivered immediately. -/
theorem messageInProcessor_decision_table_witness :
    (messageInProcessorStep
        { defaultWatcherOptions "id1" with IgnoreSelf := true }
        { callbackPending := false, data := "", timeOut := 0,
          callback := some (), stopped := false }
        (.message "id1")).emitted = []
    ∧ (messageInProcessorStep
        { defaultWatcherOptions "id1" with IgnoreSelf := true }
        { callbackPending := false, data := "", timeOut := 0,
          callback := some (), stopped := false }
        (.message "x")).emitted = ["x"] := by
  have h1 := messageInProcessor_decision_table
    { defaultWatcherOptions "id1" with IgnoreSelf := true }
    { callbackPending := false, data := "", timeOut := 0,
      callback := some (), stopped := false } "id1" rfl rfl
  have h2 := messageInProcessor_decision_table
    { defaultWatcherOptions "id1" with IgnoreSelf := true }
    { callbackPending := false, data := "", timeOut := 0,
      callback := some (), stopped := false } "x" rfl rfl
  exact ⟨((h1.2.1 rfl rfl).1 rfl).1, ((h2.2.1 rfl rfl).2 (by decide)).1⟩

/-- Counterexample to claim C2: with ignore-self and squashing both
enabled and local identifier "id1", the event sequence install-callback,
message "x", message "id1", debounce timeout makes the processor invoke
the callback carrying "id1" — the self-origin payload — because the
ignored self message still overwrites the stored `data` that the
timer-driven squashed delivery later emits. -/
theorem ignoreSelf_squash_self_payload_delivered :
    ({ defaultWatcherOptions "id1" with
        IgnoreSelf := true, SquashMessages := true } : WatcherOptions).IgnoreSelf
      = true
    ∧ ({ defaultWatcherOptions "id1" with
        IgnoreSelf := true, SquashMessages := true } : WatcherOptions).LocalID
      = "id1"
    ∧ (messageInProcessorRun
        { defaultWatcherOptions "id1" with
            IgnoreSelf := true, SquashMessages := true }
        (messageInProcessorInit
          { defaultWatcherOptions "id1" with
              IgnoreSelf := true, SquashMessages := true })
        [.setCallback (some ()), .message "x", .message "id1", .timeout]).emitted
      = ["id1"] := by
  refine ⟨rfl, rfl, ?_⟩
  rfl

/-- Claim C2 as amended: when ignore-self is enabled, a payload equal to
the local instance identifier never triggers an immediate callback and
never changes the pending flag in the step that dequeues it; and in
squash-disabled mode the callback is never invoked carrying the
self-origin payload over any event sequence started with a clear pending
flag.  (In squash-enabled mode the self payload can still be delivered
by a later squashed flush, as the counterexample shows.) -/
theorem ignoreSelf_suppression (opts : WatcherOptions)
    (hI : opts.IgnoreSelf = true) :
    (∀ s : ProcState,
       (messageInProcessorStep opts s (.message opts.LocalID)).emitted = []
       ∧ (messageInProcessorStep opts s
            (.message opts.LocalID)).state.callbackPending
           = s.callbackPending)
    ∧ (opts.SquashMessages = false →
        ∀ (es : List ProcEvent) (s : ProcState), s.callbackPending = false →
          opts.LocalID ∉ (messageInProcessorRun opts s es).emitted
          ∧ (messageInProcessorRun opts s es).state.callbackPending = false) := by
  constructor
  · intro s
    cases hst : s.stopped <;> rcases hcb : s.callback with _ | u <;>
      constructor <;>
        simp [messageInProcessorStep, hst, hcb, hI, apply_ite]
  · intro hS es
    induction es with
    | nil =>
        intro s hp
        exact ⟨by simp [messageInProcessorRun], hp⟩
    | cons e es ih =>
        intro s hp
        have hstep :
            (messageInProcessorStep opts s e).state.callbackPending = false
            ∧ opts.LocalID ∉ (messageInProcessorStep opts s e).emitted := by
          cases hst : s.stopped
          · cases e with
            | closed => simp [messageInProcessorStep, hst, hp]
            | setCallback f => simp [messageInProcessorStep, hst, hp]
            | timeout => simp [messageInProcessorStep, hst, hp]
            | message p =>
                rcases hcb : s.callback with _ | u
                · simp [messageInProcessorStep, hst, hcb, hp, apply_ite]
                · by_cases hpe : p = opts.LocalID
                  · simp [messageInProcessorStep, hst, hcb, hI, hS, hp, hpe,
                      apply_ite]
                  · refine ⟨?_, ?_⟩
                    · simp [messageInProcessorStep, hst, hcb, hI, hS, hp, hpe,
                        apply_ite]
                    · simp only [messageInProcessorStep, hst, hcb]
                      simp [hI, hS, hpe, hp, apply_ite]
                      exact fun h => hpe h.symm
          · simp [messageInProcessorStep, hst, hp]
        have hrun := ih (messageInProcessorStep opts s e).state hstep.1
        refine ⟨?_, ?_⟩
        · intro hmem
          rw [show (messageInProcessorRun opts s (e :: es)).emitted
              = (messageInProcessorStep opts s e).emitted
                ++ (messageInProcessorRun opts
                    (messageInProcessorStep opts s e).state es).emitted
              from rfl] at hmem
          rcases List.mem_append.1 hmem with h1 | h2
          · exact hstep.2 h1
          · exact hrun.1 h2
        · rw [show (messageInProcessorRun opts s (e :: es)).state
              = (messageInProcessorRun opts
                  (messageInProcessorStep opts s e).state es).state
              from rfl]
          exact hrun.2

/-- Witness for the amended C2 at a concrete input: ignore-self on,
squash off, local id "id1"; over the sequence install-callback, message
"id1", message "b", timeout, the payload "id1" is never emitted. -/
theorem ignoreSelf_suppression_witness :
    "id1" ∉ (messageInProcessorRun
        { defaultWatcherOptions "id1" with IgnoreSelf := true }
        (messageInProcessorInit
          { defaultWatcherOptions "id1" with IgnoreSelf := true })
        [.setCallback (some ()), .message "id1", .message "b", .timeout]).emitted := by
  have h := ignoreSelf_suppression
    { defaultWatcherOptions "id1" with IgnoreSelf := true } rfl
  exact (h.2 rfl
    [.setCallback (some ()), .message "id1", .message "b", .timeout]
    (messageInProcessorInit
      { defaultWatcherOptions "id1" with IgnoreSelf := true }) rfl).1

/-- Unfolding a processor run one event at a time. -/
theorem messageInProcessorRun_cons (opts : WatcherOptions) (s : ProcState)
    (e : ProcEvent) (es : List ProcEvent) :
    messageInProcessorRun opts s (e :: es)
      = ⟨(messageInProcessorRun opts
            (messageInProcessorStep opts s e).state es).state,
         (messageInProcessorStep opts s e).emitted
           ++ (messageInProcessorRun opts
                (messageInProcessorStep opts s e).state es).emitted,
         (messageInProcessorStep opts s e).nilDeref
           || (messageInProcessorRun opts
                (messageInProcessorStep opts s e).state es).nilDeref⟩ := rfl

/-- Processor runs compose over list append. -/
theorem messageInProcessorRun_append (opts : WatcherOptions)
    (xs ys : List ProcEvent) (s : ProcState) :
    messageInProcessorRun opts s (xs ++ ys)
      = ⟨(messageInProcessorRun opts
            (messageInProcessorRun opts s xs).state ys).state,
         (messageInProcessorRun opts s xs).emitted
           ++ (messageInProcessorRun opts
                (messageInProcessorRun opts s xs).state ys).emitted,
         (messageInProcessorRun opts s xs).nilDeref
           || (messageInProcessorRun opts
                (messageInProcessorRun opts s xs).state ys).nilDeref⟩ := by
  induction xs generalizing s with
  | nil => simp [messageInProcessorRun]
  | cons x xs ih =>
      simp [messageInProcessorRun, ih, Bool.or_assoc]

/-- A non-suppressed message dequeued with squashing enabled and a
callback installed marks the pending flag, stores the payload, shortens
the wait timeout, and emits nothing. -/
theorem squash_message_step (opts : WatcherOptions)
    (hS : opts.SquashMessages = true) (s : ProcState)
    (hst : s.stopped = false) (hcb : s.callback = some ()) (p : String)
    (hp : ¬(opts.IgnoreSelf = true ∧ p = opts.LocalID)) :
    messageInProcessorStep opts s (.message p)
      = ⟨{ s with
            callbackPending := true
            data := p
            timeOut := opts.SquashTimeoutShort },
          [], false⟩ := by
  by_cases hI : opts.IgnoreSelf = true
  · have hpe : p ≠ opts.LocalID := fun h => hp ⟨hI, h⟩
    simp [messageInProcessorStep, hst, hcb, hI, hS, hpe]
  · have hI2 : opts.IgnoreSelf = false := by
      cases hF : opts.IgnoreSelf
      · rfl
      · exact absurd hF hI
    simp [messageInProcessorStep, hst, hcb, hI2, hS]

/-- With squashing enabled, a burst of non-suppressed messages produces
no callback at all; the final state is pending with the last payload
stored and the short timeout active. -/
theorem squash_burst_accumulates (opts : WatcherOptions)
    (hS : opts.SquashMessages = true) :
    ∀ (ps : List String) (d : String) (s : ProcState),
      s.stopped = false → s.callback = some () →
      (∀ q ∈ ps ++ [d], ¬(opts.IgnoreSelf = true ∧ q = opts.LocalID)) →
      messageInProcessorRun opts s ((ps ++ [d]).map .message)
        = ⟨{ s with
              callbackPending := true
              data := d
              timeOut := opts.SquashTimeoutShort },
            [], false⟩ := by
  intro ps
  induction ps with
  | nil =>
      intro d s hst hcb hsupp
      have hd : ¬(opts.IgnoreSelf = true ∧ d = opts.LocalID) :=
        hsupp d (by simp)
      simp [messageInProcessorRun,
        squash_message_step opts hS s hst hcb d hd]
  | cons p ps ih =>
      intro d s hst hcb hsupp
      have hpmem : ¬(opts.IgnoreSelf = true ∧ p = opts.LocalID) :=
        hsupp p (by simp)
      have hrest : ∀ q ∈ ps ++ [d],
          ¬(opts.IgnoreSelf = true ∧ q = opts.LocalID) :=
        fun q hq => hsupp q (List.mem_cons_of_mem p hq)
      have hstep := squash_message_step opts hS s hst hcb p hpmem
      have hnext := ih d
        { s with
            callbackPending := true
            data := p
            timeOut := opts.SquashTimeoutShort }
        (by simp [hst]) (by simp [hcb]) hrest
      have hcons : ((p :: ps) ++ [d]).map ProcEvent.message
          = ProcEvent.message p :: (ps ++ [d]).map ProcEvent.message := rfl
      rw [hcons, messageInProcessorRun_cons, hstep]
      simp only [hnext]
      simp [hcb]

/-- Claim C3: with squashing enabled and a callback installed, a burst of
two or more non-suppressed payloads with no intervening timeout, followed
by the debounce timer firing, produces exactly one callback carrying the
last payload of the burst, after which the pending flag is clear and the
wait timeout is back to the long interval. -/
theorem squash_burst_single_callback (opts : WatcherOptions)
    (hS : opts.SquashMessages = true) (ps : List String) (d : String)
    (s : ProcState) (hst : s.stopped = false) (hcb : s.callback = some ())
    (hsupp : ∀ q ∈ ps ++ [d], ¬(opts.IgnoreSelf = true ∧ q = opts.LocalID))
    (hlen : ps ≠ []) :
    (messageInProcessorRun opts s
        ((ps ++ [d]).map .message ++ [.timeout])).emitted = [d]
    ∧ (messageInProcessorRun opts s
        ((ps ++ [d]).map .message ++ [.timeout])).state.timeOut
        = opts.SquashTimeoutLong
    ∧ (messageInProcessorRun opts s
        ((ps ++ [d]).map .message ++ [.timeout])).state.callbackPending
        = false
    ∧ 2 ≤ ((ps ++ [d]).map ProcEvent.message).length := by
  have hburst := squash_burst_accumulates opts hS ps d s hst hcb hsupp
  have happ := messageInProcessorRun_append opts
    ((ps ++ [d]).map .message) [.timeout] s
  have htimeout :
      messageInProcessorRun opts
        { s with
            callbackPending := true
            data := d
            timeOut := opts.SquashTimeoutShort } [ProcEvent.timeout]
      = ⟨{ s with
            callbackPending := false
            data := d
            timeOut := opts.SquashTimeoutLong },
          [d], false⟩ := by
    simp [messageInProcessorRun, messageInProcessorStep, hst, hcb]
  rw [hburst, htimeout] at happ
  refine ⟨?_, ?_, ?_, ?_⟩
  · rw [happ]
    simp
  · rw [happ]
  · rw [happ]
  · rcases ps with _ | ⟨a, ps⟩
    · exact absurd rfl hlen
    · simp

/-- Witness for C3 at a concrete input: squash on, burst "A" then "B",
then the timer fires — exactly one callback, carrying "B", and the
timeout reverts to the long interval. -/
theorem squash_burst_single_callback_witness :
    (messageInProcessorRun
        { defaultWatcherOptions "id1" with SquashMessages := true }
        { callbackPending := false, data := "", timeOut := 60000000000,
          callback := some (), stopped := false }
        ((["A"] ++ ["B"]).map .message ++ [.timeout])).emitted = ["B"]
    ∧ (messageInProcessorRun
        { defaultWatcherOptions "id1" with SquashMessages := true }
        { callbackPending := false, data := "", timeOut := 60000000000,
          callback := some (), stopped := false }
        ((["A"] ++ ["B"]).map .message ++ [.timeout])).state.timeOut
      = ({ defaultWatcherOptions "id1" with
            SquashMessages := true } : WatcherOptions).SquashTimeoutLong := by
  have h := squash_burst_single_callback
    { defaultWatcherOptions "id1" with SquashMessages := true }
    rfl ["A"] "B"
    { callbackPending := false, data := "", timeOut := 60000000000,
      callback := some (), stopped := false }
    rfl rfl (by decide) (by decide)
  exact ⟨h.1, h.2.1⟩

/-- Counterexample to claim C8: the pending flag is NOT cleared on
shutdown.  With squashing enabled, after installing a callback and
dequeuing one message the flag is set; the shutdown event then stops the
processor and leaves the flag still set. -/
theorem shutdown_leaves_pending_set :
    (messageInProcessorRun
        { defaultWatcherOptions "id1" with SquashMessages := true }
        (messageInProcessorInit
          { defaultWatcherOptions "id1" with SquashMessages := true })
        [.setCallback (some ()), .message "x", .closed]).state.stopped = true
    ∧ (messageInProcessorRun
        { defaultWatcherOptions "id1" with SquashMessages := true }
        (messageInProcessorInit
          { defaultWatcherOptions "id1" with SquashMessages := true })
        [.setCallback (some ()), .message "x", .closed]).state.callbackPending
      = true := by
  exact ⟨rfl, rfl⟩

/-- Claim C8 as amended: the pending flag is set only when a payload
message is dequeued while squashing is active, a callback is installed
and the payload is not suppressed; it is cleared exactly when the
debounce timer fires with the flag set, which delivers the squashed
callback with the stored payload; on shutdown, however, the processor
exits immediately and leaves the flag unchanged (it is not cleared). -/
theorem callbackPending_lifecycle (opts : WatcherOptions) (s : ProcState)
    (e : ProcEvent) (hst : s.stopped = false) :
    (s.callbackPending = false →
      (messageInProcessorStep opts s e).state.callbackPending = true →
      ∃ p, e = .message p ∧ opts.SquashMessages = true
        ∧ s.callback.isSome = true
        ∧ ¬(opts.IgnoreSelf = true ∧ p = opts.LocalID))
    ∧ (s.callbackPending = true →
        (messageInProcessorStep opts s e).state.callbackPending = false →
        e = .timeout
        ∧ (messageInProcessorStep opts s e).emitted = [s.data])
    ∧ (s.callbackPending = true → e = .timeout →
        (messageInProcessorStep opts s e).state.callbackPending = false
        ∧ (messageInProcessorStep opts s e).emitted = [s.data])
    ∧ (messageInProcessorStep opts s .closed).state.callbackPending
        = s.callbackPending := by
  refine ⟨?_, ?_, ?_, by simp [messageInProcessorStep, hst]⟩
  · intro hp hset
    cases e with
    | closed => simp [messageInProcessorStep, hst, hp] at hset
    | setCallback f => simp [messageInProcessorStep, hst, hp] at hset
    | timeout => simp [messageInProcessorStep, hst, hp] at hset
    | message p =>
        rcases hcb : s.callback with _ | u
        · simp [messageInProcessorStep, hst, hcb, hp, apply_ite] at hset
        · by_cases hsupp : opts.IgnoreSelf = true ∧ p = opts.LocalID
          · simp [messageInProcessorStep, hst, hcb, hp, hsupp.1, hsupp.2,
              apply_ite] at hset
          · by_cases hS : opts.SquashMessages = true
            · exact ⟨p, rfl, hS, by simp [hcb], hsupp⟩
            · have hS2 : opts.SquashMessages = false := by
                cases hF : opts.SquashMessages
                · rfl
                · exact absurd hF hS
              by_cases hI : opts.IgnoreSelf = true
              · have hpe : p ≠ opts.LocalID := fun h => hsupp ⟨hI, h⟩
                simp [messageInProcessorStep, hst, hcb, hp, hI, hS2, hpe,
                  apply_ite] at hset
              · have hI2 : opts.IgnoreSelf = false := by
                  cases hF : opts.IgnoreSelf
                  · rfl
                  · exact absurd hF hI
                simp [messageInProcessorStep, hst, hcb, hp, hI2, hS2,
                  apply_ite] at hset
  · intro hp hclr
    cases e with
    | closed => simp [messageInProcessorStep, hst, hp] at hclr
    | setCallback f => simp [messageInProcessorStep, hst, hp] at hclr
    | timeout =>
        refine ⟨rfl, ?_⟩
        simp [messageInProcessorStep, hst, hp]
    | message p =>
        rcases hcb : s.callback with _ | u
        · simp [messageInProcessorStep, hst, hcb, hp, apply_ite] at hclr
        · by_cases hI : opts.IgnoreSelf = true <;>
            by_cases hS : opts.SquashMessages = true <;>
            by_cases hpe : p = opts.LocalID <;>
            simp [messageInProcessorStep, hst, hcb, hp, hI, hS, hpe,
              Bool.not_eq_true, apply_ite] at hclr
  · intro hp he
    subst he
    constructor <;> simp [messageInProcessorStep, hst, hp]

/-- Witness for the amended C8 at a concrete input: with squash on,
callback installed and pending set, the timeout event clears the flag
and delivers the stored payload "x". -/
theorem callbackPending_lifecycle_witness :
    (messageInProcessorStep
        { defaultWatcherOptions "id1" with SquashMessages := true }
        { callbackPending := true, data := "x", timeOut := 1000000,
          callback := some (), stopped := false }
        .timeout).state.callbackPending = false
    ∧ (messageInProcessorStep
        { defaultWatcherOptions "id1" with SquashMessages := true }
        { callbackPending := true, data := "x", timeOut := 1000000,
          callback := some (), stopped := false }
        .timeout).emitted = ["x"] := by
  have h := callbackPending_lifecycle
    { defaultWatcherOptions "id1" with SquashMessages := true }
    { callbackPending := true, data := "x", timeOut := 1000000,
      callback := some (), stopped := false }
    .timeout rfl
  exact h.2.2.1 rfl rfl

/-- A trace in which `SetUpdateCallback` is never invoked with a nil
function: every `setCallback` event carries a non-nil callback. -/
def goodTrace (es : List ProcEvent) : Bool :=
  es.all fun e =>
    match e with
    | .setCallback f => f.isSome
    | _ => true

/-- Claim C10: while no callback is installed, a dequeued payload message
is discarded with no observable effect (nothing emitted, pending flag and
whole state unchanged when the flag is clear); and over any run in which
`SetUpdateCallback` is never given a nil function, the invariant "pending
implies a callback is installed" holds, so the timer-driven delivery —
which calls the callback without a nil check — never dereferences a nil
callback. -/
theorem nil_callback_safety (opts : WatcherOptions) (es : List ProcEvent)
    (s : ProcState)
    (hInv : s.callbackPending = true → s.callback.isSome = true)
    (hgood : goodTrace es = true) :
    (messageInProcessorRun opts s es).nilDeref = false
    ∧ ((messageInProcessorRun opts s es).state.callbackPending = true →
        (messageInProcessorRun opts s es).state.callback.isSome = true)
    ∧ (∀ (t : ProcState) (p : String), t.callback = none →
        (messageInProcessorStep opts t (.message p)).emitted = []
        ∧ (messageInProcessorStep opts t (.message p)).state.callbackPending
            = t.callbackPending
        ∧ (t.callbackPending = false →
            messageInProcessorStep opts t (.message p) = ⟨t, [], false⟩)) := by
  have hdiscard : ∀ (t : ProcState) (p : String), t.callback = none →
      (messageInProcessorStep opts t (.message p)).emitted = []
      ∧ (messageInProcessorStep opts t (.message p)).state.callbackPending
          = t.callbackPending
      ∧ (t.callbackPending = false →
          messageInProcessorStep opts t (.message p) = ⟨t, [], false⟩) := by
    intro t p hcb
    cases hst : t.stopped
    · refine ⟨?_, ?_, fun hp => ?_⟩
      · simp [messageInProcessorStep, hst, hcb, apply_ite]
      · simp [messageInProcessorStep, hst, hcb, apply_ite]
      · simp [messageInProcessorStep, hst, hcb, hp]
    · refine ⟨?_, ?_, fun hp => ?_⟩
      · simp [messageInProcessorStep, hst]
      · simp [messageInProcessorStep, hst]
      · simp [messageInProcessorStep, hst]
  have hmain : ∀ (es : List ProcEvent) (s : ProcState),
      (s.callbackPending = true → s.callback.isSome = true) →
      goodTrace es = true →
      (messageInProcessorRun opts s es).nilDeref = false
      ∧ ((messageInProcessorRun opts s es).state.callbackPending = true →
          (messageInProcessorRun opts s es).state.callback.isSome = true) := by
    intro es
    induction es with
    | nil => intro s hInv _; exact ⟨rfl, hInv⟩
    | cons e es ih =>
        intro s hInv hg
        rw [goodTrace, List.all_cons, Bool.and_eq_true] at hg
        have hge := hg.1
        have hges : goodTrace es = true := hg.2
        have hstep :
            (messageInProcessorStep opts s e).nilDeref = false
            ∧ ((messageInProcessorStep opts s e).state.callbackPending = true →
                (messageInProcessorStep opts s e).state.callback.isSome
                  = true) := by
          cases hst : s.stopped
          · cases e with
            | closed =>
                refine ⟨by simp [messageInProcessorStep, hst], fun hp => ?_⟩
                simp [messageInProcessorStep, hst] at hp ⊢
                exact hInv hp
            | setCallback f =>
                refine ⟨by simp [messageInProcessorStep, hst], fun hp => ?_⟩
                simp [messageInProcessorStep, hst]
                simpa using hge
            | timeout =>
                cases hp : s.callbackPending
                · refine ⟨by simp [messageInProcessorStep, hst, hp],
                    fun h2 => ?_⟩
                  simp [messageInProcessorStep, hst, hp] at h2
                · have hcb := hInv hp
                  rcases hcbv : s.callback with _ | u
                  · rw [hcbv] at hcb
                    simp at hcb
                  · refine ⟨by simp [messageInProcessorStep, hst, hp, hcbv],
                      fun h2 => ?_⟩
                    simp [messageInProcessorStep, hst, hp, hcbv]
            | message p =>
                rcases hcb : s.callback with _ | u
                · have hd := hdiscard s p hcb
                  refine ⟨?_, fun hp => ?_⟩
                  · simp [messageInProcessorStep, hst, hcb, apply_ite]
                  · rw [hd.2.1] at hp
                    have h3 := hInv hp
                    rw [hcb] at h3
                    simp at h3
                · refine ⟨?_, ?_⟩ <;>
                    by_cases hI : opts.IgnoreSelf = true <;>
                    by_cases hS : opts.SquashMessages = true <;>
                    by_cases hpe : p = opts.LocalID <;>
                    simp [messageInProcessorStep, hst, hcb, hI, hS, hpe,
                      Bool.not_eq_true, apply_ite]
          · refine ⟨by simp [messageInProcessorStep, hst], fun hp => ?_⟩
            simp [messageInProcessorStep, hst] at hp ⊢
            exact hInv hp
        have hrun := ih (messageInProcessorStep opts s e).state hstep.2 hges
        refine ⟨?_, ?_⟩
        · rw [show (messageInProcessorRun opts s (e :: es)).nilDeref
              = ((messageInProcessorStep opts s e).nilDeref
                || (messageInProcessorRun opts
                    (messageInProcessorStep opts s e).state es).nilDeref)
              from rfl]
          rw [hstep.1, hrun.1]
          rfl
        · rw [show (messageInProcessorRun opts s (e :: es)).state
              = (messageInProcessorRun opts
                  (messageInProcessorStep opts s e).state es).state
              from rfl]
          exact hrun.2
  exact ⟨(hmain es s hInv hgood).1, (hmain es s hInv hgood).2, hdiscard⟩

/-- Witness for C10 at a concrete input: a message arriving before any
callback is installed is discarded; the remaining trace installs a
callback, defers a message and flushes it, and no nil callback is ever
dereferenced. -/
theorem nil_callback_safety_witness :
    (messageInProcessorRun
        { defaultWatcherOptions "id1" with SquashMessages := true }
        (messageInProcessorInit
          { defaultWatcherOptions "id1" with SquashMessages := true })
        [.message "early", .setCallback (some ()), .message "a",
          .timeout]).nilDeref = false := by
  have h := nil_callback_safety
    { defaultWatcherOptions "id1" with SquashMessages := true }
    [.message "early", .setCallback (some ()), .message "a", .timeout]
    (messageInProcessorInit
      { defaultWatcherOptions "id1" with SquashMessages := true })
    (fun hp => by simp [messageInProcessorInit] at hp) rfl
  exact h.1

end RedisWatcher
